import Mathlib

/-!
Verification of the scheduler-mcp execution engine against its specification.

The development shallowly embeds the executor (`src/mcp_scheduler/executor.py`)
and the stdio-transport wrappers (`src/main.py`).  External effects (spawned
processes, HTTP responses, AI-provider completions, availability of desktop
notification tools, exceptions raised by library calls) are passed in as
explicit environment values, so each embedded operation is a total function
of its inputs and its environment.
-/

namespace SchedulerMCP

/-- Python truthiness of an optional string: `None` and `""` are falsy. -/
def pyTruthy : Option String → Bool
  | none => false
  | some s => s.length != 0

/-- Python falsiness of an optional string (`if not x:`). -/
def pyFalsy (o : Option String) : Bool := !pyTruthy o

/-! ## Python string primitives

The embedding models the Python string operations the source uses
(`strip`, `lower`, `upper`, `startswith`, `in`, `replace`, slicing) directly
over the character list underlying `String`, at ASCII fidelity (every
string the source manipulates in the modelled paths is ASCII). -/

/-- Whitespace as `str.strip()` sees it. -/
def isPyWs (c : Char) : Bool :=
  c = ' ' || c = '\t' || c = '\n' || c = '\r' || c = '\x0b' || c = '\x0c'

/-- `str.strip()` on the underlying character list. -/
def stripList (l : List Char) : List Char :=
  ((l.dropWhile isPyWs).reverse.dropWhile isPyWs).reverse

/-- `str.strip()`. -/
def pyStrip (s : String) : String := String.mk (stripList s.data)

/-- ASCII `str.lower()` on one character. -/
def asciiLower (c : Char) : Char :=
  if 65 ≤ c.toNat && c.toNat ≤ 90 then Char.ofNat (c.toNat + 32) else c

/-- `str.lower()`. -/
def pyLower (s : String) : String := String.mk (s.data.map asciiLower)

/-- ASCII `str.upper()` on one character. -/
def asciiUpper (c : Char) : Char :=
  if 97 ≤ c.toNat && c.toNat ≤ 122 then Char.ofNat (c.toNat - 32) else c

/-- `str.upper()`. -/
def pyUpper (s : String) : String := String.mk (s.data.map asciiUpper)

/-- Does `pat` occur at the head of the second list? -/
def listStartsWith : List Char → List Char → Bool
  | [], _ => true
  | _ :: _, [] => false
  | a :: as, b :: bs => if a = b then listStartsWith as bs else false

/-- `str.startswith(pre)`. -/
def pyStartsWith (s pre : String) : Bool := listStartsWith pre.data s.data

/-- `ch in s` for a single character. -/
def charIn (c : Char) (s : String) : Bool := s.data.any (fun x => x == c)

/-- Does `pat` occur anywhere in `l` (Python's `in` on strings)? -/
def hasSubList (pat : List Char) : List Char → Bool
  | [] => pat.isEmpty
  | c :: rest => if listStartsWith pat (c :: rest) then true else hasSubList pat rest

/-- `sub in s` for strings. -/
def strHasSub (s sub : String) : Bool := hasSubList sub.data s.data

/-- `str.replace(old, new)` on character lists (for a non-empty `old`, the
only way the source uses it).  Fuel-indexed structural recursion; every step
consumes at least one character, so fuel equal to the input length
suffices. -/
def replaceList (old new : List Char) : Nat → List Char → List Char
  | 0, l => l
  | _, [] => []
  | fuel + 1, c :: rest =>
    if old.isEmpty then c :: replaceList old new fuel rest
    else if listStartsWith old (c :: rest) then
      new ++ replaceList old new fuel (rest.drop (old.length - 1))
    else c :: replaceList old new fuel rest

/-- `str.replace(old, new)`. -/
def pyReplace (s old new : String) : String :=
  String.mk (replaceList old.data new.data s.data.length s.data)

/-- `s[:n]` (Python slicing by characters). -/
def pyTake (s : String) (n : Nat) : String := String.mk (s.data.take n)

/-- Modelled from the spec: `TaskStatus` lives in `mcp_scheduler/task.py`,
which is not under `src/`; the spec fixes the domain
`{pending, running, completed, failed}`. -/
inductive TaskStatus
  | pending
  | running
  | completed
  | failed
deriving DecidableEq

/-- Modelled from the spec: `TaskExecution` lives in `mcp_scheduler/task.py`,
which is not under `src/`.  The spec fixes the fields: `output`/`error`
nullable, `end_time` set only on terminal status.  The executor constructs it
as `TaskExecution(task_id=task.id)`, so every other field starts at its
default; the spec's transition order starts at `pending`. -/
structure TaskExecution where
  task_id : String
  status : TaskStatus := TaskStatus.pending
  output : Option String := none
  error : Option String := none
  end_time_set : Bool := false
deriving DecidableEq

/-- Modelled from the spec: `Task` lives in `mcp_scheduler/task.py`, which is
not under `src/`.  The executor compares `task.type.value` against string
literals, so the type tag is embedded as the raw string value; the payload
fields are exactly the ones `execute_task` reads. -/
structure Task where
  id : String
  name : String
  type : String
  command : Option String := none
  api_url : Option String := none
  api_method : Option String := none
  api_headers : List (String × String) := []
  api_body : Option String := none
  prompt : Option String := none
  reminder_title : Option String := none
  reminder_message : Option String := none

/-- The executor state set up in `Executor.__init__` (executor.py lines
20-27): the configured execution timeout (an `int` per config.py line 34),
the host platform string returned by `platform.system()`, and whether
`_init_ai_client` left `self.ai_client` set (it stays `None` when no API key
is configured or client construction fails). -/
structure Executor where
  execution_timeout : Nat
  os_type : String
  ai_configured : Bool

/-- `self.is_windows = platform.system() == "Windows"` (executor.py line 24). -/
def isWindows (e : Executor) : Bool := e.os_type == "Windows"

/-! ## Shell command execution (executor.py lines 159-228) -/

/-- `shell_commands` (executor.py line 168): commands treated as shell
builtins. -/
def shellBuiltins : List String :=
  ["start", "cd", "dir", "echo", "set", "type", "copy", "del", "md", "rd", "ren", "cls"]

/-- `any(command.strip().lower().startswith(cmd) for cmd in shell_commands)`
(executor.py line 171). -/
def startsWithBuiltin (c : String) : Bool :=
  shellBuiltins.any (fun b => pyStartsWith (pyLower (pyStrip c)) b)

/-- `'|' in command or '>' in command or '<' in command` (executor.py
line 175). -/
def containsPipeRedirect (c : String) : Bool :=
  charIn '|' c || charIn '>' c || charIn '<' c

/-- `use_shell` computation of `_execute_shell_command` (executor.py lines
165-176): start from `is_windows`, force shell mode on a builtin-prefixed
command or on a pipe/redirect character. -/
def useShellMode (is_w : Bool) (c : String) : Bool :=
  is_w || startsWithBuiltin c || containsPipeRedirect c

/-- How the command gets spawned: via the shell (`create_subprocess_shell`
with the full command string), via direct argument-vector execution
(`create_subprocess_exec` on the `shlex.split` result), or not at all because
`shlex.split` raised `ValueError` (executor.py lines 180-206). -/
inductive SpawnPlan
  | shellMode (full : String)
  | execMode (args : List String)
  | syntaxError (msg : String)
deriving DecidableEq

/-- Spawn decision of `_execute_shell_command` (executor.py lines 181-206):
in shell mode Windows prepends `cmd.exe /c`, otherwise the raw command is
run; in direct mode the command is `shlex.split` first (the split result, or
the `ValueError` message, is supplied by the environment since `shlex` is a
library call). -/
def shellSpawnPlan (is_w : Bool) (c : String)
    (shlexRes : Except String (List String)) : SpawnPlan :=
  if useShellMode is_w c then
    SpawnPlan.shellMode (if is_w then "cmd.exe /c " ++ c else c)
  else
    match shlexRes with
    | Except.error e => SpawnPlan.syntaxError e
    | Except.ok args => SpawnPlan.execMode args

/-- Behavior of the spawned process as seen through
`asyncio.wait_for(process.communicate(), timeout=...)`: either the wait
times out, or the process finishes with a return code and captured
stdout/stderr (already decoded; empty string stands for empty bytes). -/
inductive ProcResult
  | timeout
  | done (returncode : Int) (stdout : String) (stderr : String)
deriving DecidableEq

/-- Environment of one `_execute_shell_command` call: the `shlex.split`
outcome, whether the `create_subprocess_*` call raised (the outer
`except Exception` at line 227), and how the process behaved. -/
structure ShellEnv where
  shlexResult : Except String (List String)
  spawnError : Option String
  procResult : ProcResult

/-- Result handling after `process.communicate()` (executor.py lines
208-225): timeout kills the process and reports elapsed seconds; a nonzero
return code reports the code plus captured stderr (or `"Unknown error"` when
stderr is empty); success returns stripped stdout. -/
def procOutcome (tmo : Nat) : ProcResult → Option String × Option String
  | ProcResult.timeout =>
      (none, some ("Command timed out after " ++ toString tmo ++ " seconds"))
  | ProcResult.done rc out err =>
      if rc != 0 then
        (none, some ("Command failed with exit code " ++ toString rc ++ ": "
          ++ (if err.length = 0 then "Unknown error" else err)))
      else
        (some (pyStrip out), none)

/-- `_execute_shell_command` (executor.py lines 159-228) as a function of the
command and the process environment. -/
def execShellCommandModel (is_w : Bool) (tmo : Nat) (command : Option String)
    (env : ShellEnv) : Option String × Option String :=
  if pyFalsy command then (none, some "No command specified")
  else
    match shellSpawnPlan is_w (command.getD "") env.shlexResult with
    | SpawnPlan.syntaxError e => (none, some ("Invalid command syntax: " ++ e))
    | _ =>
      match env.spawnError with
      | some e => (none, some ("Failed to execute command: " ++ e))
      | none => procOutcome tmo env.procResult

/-! ## API call execution (executor.py lines 230-265) -/

/-- Behavior of the HTTP request issued through `aiohttp`: a client error, a
timeout, or a response with a status code and a body text. -/
inductive ApiResult
  | clientError (msg : String)
  | timeout
  | response (status : Nat) (body : String)
deriving DecidableEq

/-- `method = method.upper()` after defaulting to `"GET"` (executor.py lines
235-238); recorded for fidelity of the request construction. -/
def apiMethodUsed (method : Option String) : String :=
  pyUpper (if pyFalsy method then "GET" else method.getD "")

/-- `_execute_api_call` (executor.py lines 230-265): empty URL fails fast;
otherwise the outcome is classified by the response status (`>= 400` fails
with status and body), client errors and timeouts produce their messages. -/
def execApiCallModel (tmo : Nat) (url method : Option String) (env : ApiResult) :
    Option String × Option String :=
  if pyFalsy url then (none, some "No URL specified")
  else
    let _meth := apiMethodUsed method
    match env with
    | ApiResult.clientError e => (none, some ("API call failed: " ++ e))
    | ApiResult.timeout =>
        (none, some ("API call timed out after " ++ toString tmo ++ " seconds"))
    | ApiResult.response st body =>
        if st ≥ 400 then
          (none, some ("API call failed with status " ++ toString st ++ ": " ++ body))
        else
          (some body, none)

/-! ## AI task execution (executor.py lines 267-325) -/

/-- Behavior of the provider completion call (the provider SDK is an external
collaborator; the spec models it as a pluggable completion capability): the
30-second `asyncio.wait_for` fires, the call raises, or a completion is
returned.  The returned `completion.choices[0].message.content` is typed
`Optional[str]` in the SDK (null for tool-call or content-filtered
completions), so the content here is an `Option String`. -/
inductive AiResult
  | timeout
  | raisedErr (msg : String)
  | completion (content : Option String)
deriving DecidableEq

/-- `_execute_ai_task` (executor.py lines 267-325): empty prompt fails fast;
a missing client fails fast with a fixed message before any request is
issued; otherwise the completion outcome is classified.  The success path is
`return response, None` (line 315) with `response` the possibly-null message
content, so a null content yields `(None, None)`. -/
def execAiTaskModel (configured : Bool) (prompt : Option String) (env : AiResult) :
    Option String × Option String :=
  if pyFalsy prompt then (none, some "No prompt specified")
  else if !configured then (none, some "No AI client configured for AI tasks")
  else
    match env with
    | AiResult.timeout => (none, some "AI API call timed out")
    | AiResult.raisedErr e => (none, some ("AI task failed: " ++ e))
    | AiResult.completion content => (content, none)

/-! ## Reminder task execution (executor.py lines 327-493) -/

/-- Environment of one `_execute_reminder_task` call: which Linux
notification tools are installed (`which` exit code 0), the Windows temp
file path, the environment of the shell invocation that renders the
notification, and whether anything in the `try` body raised. -/
structure ReminderEnv where
  hasNotifySend : Bool
  hasZenity : Bool
  hasXmessage : Bool
  tempHtml : String
  shellEnv : ShellEnv
  raised : Option String

/-- `safe = s.replace('"', '\\"')` (executor.py lines 431-432, 438-439). -/
def escQuote (s : String) : String := pyReplace s "\"" "\\\""

/-- `sound_cmd` (executor.py line 443). -/
def soundCommand : String := "paplay /usr/share/sounds/freedesktop/stereo/message.oga"

/-- `notify_cmd` chained with the sound command (executor.py lines 442-446). -/
def notifySendCommand (title message : String) : String :=
  "notify-send -u normal \"" ++ escQuote title ++ "\" \"" ++ escQuote message
    ++ "\" && " ++ soundCommand

/-- The zenity fallback command (executor.py line 466). -/
def zenityCommand (title message : String) : String :=
  "zenity --info --title=\"" ++ escQuote title ++ "\" --text=\"" ++ escQuote message
    ++ "\" & " ++ soundCommand

/-- The xmessage last-resort command (executor.py line 477). -/
def xmessageCommand (title message : String) : String :=
  "xmessage -center \"" ++ escQuote title ++ ": " ++ escQuote message
    ++ "\" & " ++ soundCommand

/-- The macOS osascript notification command (executor.py line 434). -/
def darwinCommand (title message : String) : String :=
  "osascript -e \x27display notification \"" ++ escQuote message
    ++ "\" with title \"" ++ escQuote title ++ "\" sound name \"default\"\x27"

/-- The Linux branch's ordered fallback chain (executor.py lines 436-479):
notify-send when present, else zenity, else xmessage, else no command. -/
def linuxNotifyCommand (title message : String) (hasNS hasZ hasX : Bool) :
    Option String :=
  if hasNS then some (notifySendCommand title message)
  else if hasZ then some (zenityCommand title message)
  else if hasX then some (xmessageCommand title message)
  else none

/-- Running the chosen notification command through
`_execute_shell_command` (executor.py lines 481-487): a truthy error becomes
`"Notification failed: ..."`, otherwise the reminder reports the displayed
title. -/
def notifyOutcome (title : String) (r : Option String × Option String) :
    Option String × Option String :=
  if pyTruthy r.2 then (none, some ("Notification failed: " ++ r.2.getD ""))
  else (some ("Displayed notification: " ++ title), none)

/-- The shell invocation rendering the notification (executor.py lines
481-487). -/
def runNotify (is_w : Bool) (tmo : Nat) (title cmd : String) (shenv : ShellEnv) :
    Option String × Option String :=
  notifyOutcome title (execShellCommandModel is_w tmo (some cmd) shenv)

/-- `_execute_reminder_task` (executor.py lines 327-493).  The Windows branch
writes a temporary HTML file and shows it via `mshta` (the file's contents
and the ignored backup `MessageBeep` invocation are rendering details the
spec leaves out of the core); the Darwin branch uses `osascript`; the Linux
branch walks the notify-send/zenity/xmessage fallback chain and, when none
is available, fails naming the platform.  Any exception in the `try` body is
reported as `"Reminder task failed: ..."`. -/
def execReminderModel (ex : Executor) (title : String) (message : Option String)
    (env : ReminderEnv) : Option String × Option String :=
  if pyFalsy message then (none, some "No message specified for reminder")
  else
    match env.raised with
    | some m => (none, some ("Reminder task failed: " ++ m))
    | none =>
      if isWindows ex then
        runNotify (isWindows ex) ex.execution_timeout title
          ("start mshta.exe \"" ++ env.tempHtml ++ "\"") env.shellEnv
      else if ex.os_type == "Darwin" then
        runNotify (isWindows ex) ex.execution_timeout title
          (darwinCommand title (message.getD "")) env.shellEnv
      else
        match linuxNotifyCommand title (message.getD "")
            env.hasNotifySend env.hasZenity env.hasXmessage with
        | some cmd => runNotify (isWindows ex) ex.execution_timeout title cmd env.shellEnv
        | none =>
            (none, some ("No notification command available on this system ("
              ++ ex.os_type ++ ")"))

/-! ## Task dispatch (executor.py lines 96-157) -/

/-- Environment of one `execute_task` call: the per-type handler
environments, plus an optional exception escaping the type-specific handler
into `execute_task`'s own `except Exception` (executor.py lines 151-154). -/
structure World where
  raised : Option String := none
  shellEnv : ShellEnv
  apiEnv : ApiResult
  aiEnv : AiResult
  reminderEnv : ReminderEnv

/-- `TaskExecution(task_id=task.id)` (executor.py line 100). -/
def newExecution (tid : String) : TaskExecution := { task_id := tid }

/-- `task.reminder_title or task.name` (executor.py line 137). -/
def reminderTitle (t : Task) : String :=
  if pyTruthy t.reminder_title then t.reminder_title.getD "" else t.name

/-- The uniform result handling shared by the four dispatch branches
(executor.py lines 104-145 and 151-154): an escaped exception marks the
execution failed with the exception text; otherwise a truthy error marks it
failed with that error and a falsy error marks it completed with the
handler's output. -/
def handlerStep (e : TaskExecution) (raised : Option String)
    (r : Option String × Option String) : TaskExecution :=
  match raised with
  | some m => { e with status := TaskStatus.failed, error := some m }
  | none =>
    if pyTruthy r.2 then { e with status := TaskStatus.failed, error := r.2 }
    else { e with status := TaskStatus.completed, output := r.1 }

/-- The `try` body of `Executor.execute_task` (executor.py lines 102-154):
dispatch on the task's type string, route the handler's `(output, error)`
pair through the uniform result handling, and mark unsupported types
failed. -/
def dispatchExecution (ex : Executor) (t : Task) (w : World) : TaskExecution :=
  if t.type = "shell_command" then
    handlerStep (newExecution t.id) w.raised
      (execShellCommandModel (isWindows ex) ex.execution_timeout t.command w.shellEnv)
  else if t.type = "api_call" then
    handlerStep (newExecution t.id) w.raised
      (execApiCallModel ex.execution_timeout t.api_url t.api_method w.apiEnv)
  else if t.type = "ai" then
    handlerStep (newExecution t.id) w.raised
      (execAiTaskModel ex.ai_configured t.prompt w.aiEnv)
  else if t.type = "reminder" then
    handlerStep (newExecution t.id) w.raised
      (execReminderModel ex (reminderTitle t) t.reminder_message w.reminderEnv)
  else
    { newExecution t.id with
        status := TaskStatus.failed
        error := some ("Unsupported task type: " ++ t.type) }

/-- `Executor.execute_task` (executor.py lines 96-157): run the dispatch and
set `end_time` before returning (line 156). -/
def executeTask (ex : Executor) (t : Task) (w : World) : TaskExecution :=
  { dispatchExecution ex t w with end_time_set := true }

/-! ## Basic facts about the embedding -/

theorem executeTask_status (ex : Executor) (t : Task) (w : World) :
    (executeTask ex t w).status = (dispatchExecution ex t w).status := rfl

theorem executeTask_output (ex : Executor) (t : Task) (w : World) :
    (executeTask ex t w).output = (dispatchExecution ex t w).output := rfl

theorem executeTask_error (ex : Executor) (t : Task) (w : World) :
    (executeTask ex t w).error = (dispatchExecution ex t w).error := rfl

theorem dispatch_shell (ex : Executor) (t : Task) (w : World)
    (h : t.type = "shell_command") :
    dispatchExecution ex t w = handlerStep (newExecution t.id) w.raised
      (execShellCommandModel (isWindows ex) ex.execution_timeout t.command w.shellEnv) := by
  unfold dispatchExecution
  rw [h]
  rfl

theorem dispatch_api (ex : Executor) (t : Task) (w : World)
    (h : t.type = "api_call") :
    dispatchExecution ex t w = handlerStep (newExecution t.id) w.raised
      (execApiCallModel ex.execution_timeout t.api_url t.api_method w.apiEnv) := by
  unfold dispatchExecution
  rw [h]
  rfl

theorem dispatch_ai (ex : Executor) (t : Task) (w : World)
    (h : t.type = "ai") :
    dispatchExecution ex t w = handlerStep (newExecution t.id) w.raised
      (execAiTaskModel ex.ai_configured t.prompt w.aiEnv) := by
  unfold dispatchExecution
  rw [h]
  rfl

theorem dispatch_reminder (ex : Executor) (t : Task) (w : World)
    (h : t.type = "reminder") :
    dispatchExecution ex t w = handlerStep (newExecution t.id) w.raised
      (execReminderModel ex (reminderTitle t) t.reminder_message w.reminderEnv) := by
  unfold dispatchExecution
  rw [h]
  rfl

theorem handlerStep_err (tid : String) (p : Option String × Option String)
    (h : pyTruthy p.2 = true) :
    handlerStep (newExecution tid) none p
      = { task_id := tid, status := TaskStatus.failed, output := none
          error := p.2, end_time_set := false } := by
  unfold handlerStep newExecution
  rw [if_pos h]

theorem handlerStep_ok (tid : String) (p : Option String × Option String)
    (h : pyTruthy p.2 = false) :
    handlerStep (newExecution tid) none p
      = { task_id := tid, status := TaskStatus.completed, output := p.1
          error := none, end_time_set := false } := by
  unfold handlerStep newExecution
  rw [if_neg (by simp [h])]

theorem len_append_left (a b : String) (ha : a.length ≠ 0) :
    (a ++ b).length ≠ 0 := by
  rw [String.length_append]
  omega

theorem pyTruthy_of_len (s : String) (h : s.length ≠ 0) :
    pyTruthy (some s) = true := by
  simp [pyTruthy]
  omega

theorem pyTruthy_ne_false_of_len (s : String) (h : s.length ≠ 0) :
    pyTruthy (some s) ≠ false := by
  rw [pyTruthy_of_len s h]
  simp

/-- A handler result pair is well-formed when a falsy error implies the
output half is populated; each of the four embedded handlers produces only
such pairs. -/
def goodPair (p : Option String × Option String) : Prop :=
  pyTruthy p.2 = false → p.1.isSome

theorem goodPair_shell (is_w : Bool) (tmo : Nat) (cmd : Option String)
    (env : ShellEnv) : goodPair (execShellCommandModel is_w tmo cmd env) := by
  unfold goodPair execShellCommandModel procOutcome
  split
  · intro h; exact absurd h (by decide)
  · split
    · intro h
      exact absurd h (pyTruthy_ne_false_of_len _ (len_append_left _ _ (by decide)))
    · split
      · intro h
        exact absurd h (pyTruthy_ne_false_of_len _ (len_append_left _ _ (by decide)))
      · split
        · intro h
          exact absurd h (pyTruthy_ne_false_of_len _
            (len_append_left _ _ (len_append_left _ _ (by decide))))
        · split
          · intro h
            exact absurd h (pyTruthy_ne_false_of_len _
              (len_append_left _ _ (len_append_left _ _ (len_append_left _ _ (by decide)))))
          · intro h; simp

theorem goodPair_api (tmo : Nat) (url method : Option String) (env : ApiResult) :
    goodPair (execApiCallModel tmo url method env) := by
  unfold goodPair execApiCallModel
  split
  · intro h; exact absurd h (by decide)
  · split
    · intro h
      exact absurd h (pyTruthy_ne_false_of_len _ (len_append_left _ _ (by decide)))
    · intro h
      exact absurd h (pyTruthy_ne_false_of_len _
        (len_append_left _ _ (len_append_left _ _ (by decide))))
    · split
      · intro h
        exact absurd h (pyTruthy_ne_false_of_len _
          (len_append_left _ _ (len_append_left _ _ (len_append_left _ _ (by decide)))))
      · intro h; simp

/-- The AI handler either produces a well-formed pair, or — exactly when the
provider returned a completion with null content — the bare `(None, None)`
pair of `return response, None`. -/
theorem ai_pair_cases (configured : Bool) (prompt : Option String) (env : AiResult) :
    goodPair (execAiTaskModel configured prompt env) ∨
    (env = AiResult.completion none ∧
      execAiTaskModel configured prompt env = (none, none)) := by
  unfold goodPair execAiTaskModel
  split
  · left; intro h; exact absurd h (by decide)
  · split
    · left; intro h; exact absurd h (by decide)
    · split
      · left; intro h; exact absurd h (by decide)
      · left; intro h
        exact absurd h (pyTruthy_ne_false_of_len _ (len_append_left _ _ (by decide)))
      · rename_i content
        cases content with
        | some s => left; intro h; simp
        | none => right; exact ⟨rfl, rfl⟩

theorem goodPair_notifyOutcome (title : String) (r : Option String × Option String) :
    goodPair (notifyOutcome title r) := by
  unfold goodPair notifyOutcome
  split
  · intro h
    exact absurd h (pyTruthy_ne_false_of_len _ (len_append_left _ _ (by decide)))
  · intro h; simp

theorem goodPair_runNotify (is_w : Bool) (tmo : Nat) (title cmd : String)
    (shenv : ShellEnv) : goodPair (runNotify is_w tmo title cmd shenv) :=
  goodPair_notifyOutcome _ _

theorem goodPair_reminder (ex : Executor) (title : String) (message : Option String)
    (env : ReminderEnv) : goodPair (execReminderModel ex title message env) := by
  unfold goodPair execReminderModel
  split
  · intro h; exact absurd h (by decide)
  · split
    · intro h
      exact absurd h (pyTruthy_ne_false_of_len _ (len_append_left _ _ (by decide)))
    · split
      · exact goodPair_runNotify _ _ _ _ _
      · split
        · exact goodPair_runNotify _ _ _ _ _
        · split
          · exact goodPair_runNotify _ _ _ _ _
          · intro h
            exact absurd h (pyTruthy_ne_false_of_len _
              (len_append_left _ _ (len_append_left _ _ (by decide))))

theorem handlerStep_cases (tid : String) (r : Option String)
    (p : Option String × Option String) (hg : goodPair p) :
    ((handlerStep (newExecution tid) r p).status = TaskStatus.completed ∧
      (handlerStep (newExecution tid) r p).output.isSome ∧
      (handlerStep (newExecution tid) r p).error = none) ∨
    ((handlerStep (newExecution tid) r p).status = TaskStatus.failed ∧
      (handlerStep (newExecution tid) r p).error.isSome ∧
      (handlerStep (newExecution tid) r p).output = none) := by
  unfold handlerStep newExecution
  cases r with
  | some m => right; simp
  | none =>
    cases h : pyTruthy p.2 with
    | true =>
      right
      simp [h]
      cases hp : p.2 with
      | none => rw [hp] at h; exact absurd h (by decide)
      | some s => simp
    | false =>
      left
      simp [h]
      exact hg h

theorem dispatchExecution_cases (ex : Executor) (t : Task) (w : World) :
    ((dispatchExecution ex t w).status = TaskStatus.completed ∧
      (dispatchExecution ex t w).output.isSome ∧
      (dispatchExecution ex t w).error = none) ∨
    ((dispatchExecution ex t w).status = TaskStatus.failed ∧
      (dispatchExecution ex t w).error.isSome ∧
      (dispatchExecution ex t w).output = none) ∨
    (t.type = "ai" ∧ w.aiEnv = AiResult.completion none ∧
      (dispatchExecution ex t w).status = TaskStatus.completed ∧
      (dispatchExecution ex t w).output = none ∧
      (dispatchExecution ex t w).error = none) := by
  unfold dispatchExecution
  split
  · rcases handlerStep_cases t.id w.raised _ (goodPair_shell _ _ _ _) with h | h
    · exact Or.inl h
    · exact Or.inr (Or.inl h)
  · split
    · rcases handlerStep_cases t.id w.raised _ (goodPair_api _ _ _ _) with h | h
      · exact Or.inl h
      · exact Or.inr (Or.inl h)
    · split
      · rename_i hai
        rcases ai_pair_cases ex.ai_configured t.prompt w.aiEnv with hg | ⟨henv, hpair⟩
        · rcases handlerStep_cases t.id w.raised _ hg with h | h
          · exact Or.inl h
          · exact Or.inr (Or.inl h)
        · cases hr : w.raised with
          | some m =>
            right; left
            refine ⟨?_, ?_, ?_⟩ <;> simp [handlerStep, newExecution]
          | none =>
            right; right
            have hstep := handlerStep_ok t.id (none, none) rfl
            refine ⟨hai, henv, ?_, ?_, ?_⟩ <;> rw [hpair, hstep]
      · split
        · rcases handlerStep_cases t.id w.raised _ (goodPair_reminder _ _ _ _) with h | h
          · exact Or.inl h
          · exact Or.inr (Or.inl h)
        · right; left; simp [newExecution]

/-- C1: for every task of any of the four types (and any other type) and any
behavior of the underlying action — timeouts, nonzero exits, provider
errors, and exceptions raised inside the type-specific handler —
`execute_task` returns a `TaskExecution` whose status is terminal
(`completed` or `failed`), never `pending` or `running`; the embedding is a
total function of the task and the environment, so no exception propagates
to the caller. -/
theorem execute_task_terminal (ex : Executor) (t : Task) (w : World) :
    (executeTask ex t w).status = TaskStatus.completed ∨
    (executeTask ex t w).status = TaskStatus.failed := by
  rw [executeTask_status]
  rcases dispatchExecution_cases ex t w with ⟨h, _, _⟩ | ⟨h, _, _⟩ | ⟨_, _, h, _, _⟩
  · exact Or.inl h
  · exact Or.inr h
  · exact Or.inl h

/-- C2 (amended): for every task and every environment behavior, the
`TaskExecution` returned by `execute_task` has exactly one of `output` and
`error` populated — `output` present exactly when `completed`, `error`
present exactly when `failed` — except when an `ai` task's provider
completion carries a null message content: then the execution is `completed`
with neither `output` nor `error` populated. -/
theorem execute_task_exactly_one_amended (ex : Executor) (t : Task) (w : World) :
    ((executeTask ex t w).status = TaskStatus.completed ∧
      (executeTask ex t w).output.isSome ∧ (executeTask ex t w).error = none) ∨
    ((executeTask ex t w).status = TaskStatus.failed ∧
      (executeTask ex t w).error.isSome ∧ (executeTask ex t w).output = none) ∨
    (t.type = "ai" ∧ w.aiEnv = AiResult.completion none ∧
      (executeTask ex t w).status = TaskStatus.completed ∧
      (executeTask ex t w).output = none ∧ (executeTask ex t w).error = none) := by
  rw [executeTask_status, executeTask_output, executeTask_error]
  exact dispatchExecution_cases ex t w

/-! ## Sample inputs shared by the witnesses -/

def sampleShellEnv : ShellEnv :=
  { shlexResult := Except.ok ["true"], spawnError := none
    procResult := ProcResult.done 0 "" "" }

def sampleReminderEnv : ReminderEnv :=
  { hasNotifySend := false, hasZenity := false, hasXmessage := false
    tempHtml := "", shellEnv := sampleShellEnv, raised := none }

def sampleWorld : World :=
  { raised := none, shellEnv := sampleShellEnv
    apiEnv := ApiResult.response 200 "ok"
    aiEnv := AiResult.completion (some "hello")
    reminderEnv := sampleReminderEnv }

def sampleExecutor : Executor :=
  { execution_timeout := 300, os_type := "Linux", ai_configured := false }

def baseTask : Task :=
  { id := "t1", name := "Sample", type := "shell_command"
    command := some "ls -l", api_url := some "http://example.com"
    prompt := some "hello", reminder_message := some "msg" }

/-! ## Claims about the executor -/

/-- C2 counterexample: an `ai` task whose provider completion carries a null
message content (the SDK types `message.content` as `Optional[str]`) runs
`return response, None` with `response = None`, and `execute_task`'s falsy
error check then marks the execution `completed` with neither `output` nor
`error` populated — refuting "exactly one of the two is populated at
terminal state" and "output is present iff completed" at this concrete
input. -/
theorem execute_task_neither_populated :
    (executeTask { sampleExecutor with ai_configured := true }
        { baseTask with type := "ai" }
        { sampleWorld with aiEnv := AiResult.completion none }).status
      = TaskStatus.completed ∧
    (executeTask { sampleExecutor with ai_configured := true }
        { baseTask with type := "ai" }
        { sampleWorld with aiEnv := AiResult.completion none }).output = none ∧
    (executeTask { sampleExecutor with ai_configured := true }
        { baseTask with type := "ai" }
        { sampleWorld with aiEnv := AiResult.completion none }).error = none :=
  ⟨rfl, rfl, rfl⟩

/-- C10: for every task whose type is none of the four known values,
`execute_task` returns a failed `TaskExecution` whose error is
`"Unsupported task type: "` followed by the type value (and, being a total
function, raises nothing). -/
theorem unsupported_type_failure (ex : Executor) (t : Task) (w : World)
    (h1 : t.type ≠ "shell_command") (h2 : t.type ≠ "api_call")
    (h3 : t.type ≠ "ai") (h4 : t.type ≠ "reminder") :
    (executeTask ex t w).status = TaskStatus.failed ∧
    (executeTask ex t w).error = some ("Unsupported task type: " ++ t.type) := by
  rw [executeTask_status, executeTask_error]
  unfold dispatchExecution
  rw [if_neg h1, if_neg h2, if_neg h3, if_neg h4]
  exact ⟨rfl, rfl⟩

theorem unsupported_type_failure_witness :
    (executeTask sampleExecutor { baseTask with type := "bogus" } sampleWorld).status
        = TaskStatus.failed ∧
    (executeTask sampleExecutor { baseTask with type := "bogus" } sampleWorld).error
        = some "Unsupported task type: bogus" := by
  have h := unsupported_type_failure sampleExecutor { baseTask with type := "bogus" }
    sampleWorld (by decide) (by decide) (by decide) (by decide)
  exact ⟨h.1, by rw [h.2]; rfl⟩

/-- C3: for every non-empty shell command on a non-Windows host, the spawn
decision is shell-interpreted execution (of the raw command) exactly when
the command contains a pipe/redirection character or its
stripped-and-lowercased text starts with one of the known shell-builtin
keywords; otherwise the spawn is direct argument-vector execution of the
`shlex.split` result. -/
theorem shell_mode_selection (ex : Executor) (c : String)
    (sr : Except String (List String))
    (hw : isWindows ex = false) (hc : c ≠ "") :
    ((shellSpawnPlan (isWindows ex) c sr = SpawnPlan.shellMode c) ↔
      (containsPipeRedirect c = true ∨ startsWithBuiltin c = true)) ∧
    (∀ args, sr = Except.ok args → containsPipeRedirect c = false →
      startsWithBuiltin c = false →
      shellSpawnPlan (isWindows ex) c sr = SpawnPlan.execMode args) := by
  rw [hw]
  unfold shellSpawnPlan useShellMode
  refine ⟨?_, ?_⟩
  · cases hb : startsWithBuiltin c <;> cases hp : containsPipeRedirect c <;>
      simp [hb, hp]
    cases sr <;> simp
  · intro args hsr hp hb
    subst hsr
    simp [hb, hp]

theorem shell_mode_selection_witness :
    shellSpawnPlan (isWindows sampleExecutor) "cat a.txt | sort"
        (Except.ok ["cat", "a.txt", "|", "sort"])
      = SpawnPlan.shellMode "cat a.txt | sort" ∧
    shellSpawnPlan (isWindows sampleExecutor) "ls -l" (Except.ok ["ls", "-l"])
      = SpawnPlan.execMode ["ls", "-l"] := by
  constructor
  · exact (shell_mode_selection sampleExecutor "cat a.txt | sort" _
      (by decide) (by decide)).1.mpr (Or.inl (by decide))
  · exact (shell_mode_selection sampleExecutor "ls -l" _
      (by decide) (by decide)).2 _ rfl (by decide) (by decide)

/-- C4: for every `shell_command` task whose spawned process exits with a
nonzero code within the timeout, the resulting `TaskExecution` is `failed`
and its error spells out the exit code followed by the captured stderr
(`"Unknown error"` standing in when stderr is empty). -/
theorem shell_nonzero_exit_failure (ex : Executor) (t : Task) (w : World)
    (rc : Int) (out err : String)
    (htype : t.type = "shell_command")
    (hraised : w.raised = none)
    (hcmd : pyFalsy t.command = false)
    (hplan : (∃ args, shellSpawnPlan (isWindows ex) (t.command.getD "")
        w.shellEnv.shlexResult = SpawnPlan.execMode args) ∨
      (∃ full, shellSpawnPlan (isWindows ex) (t.command.getD "")
        w.shellEnv.shlexResult = SpawnPlan.shellMode full))
    (hspawn : w.shellEnv.spawnError = none)
    (hproc : w.shellEnv.procResult = ProcResult.done rc out err)
    (hrc : rc ≠ 0) :
    (executeTask ex t w).status = TaskStatus.failed ∧
    (executeTask ex t w).error = some ("Command failed with exit code "
      ++ toString rc ++ ": " ++ (if err.length = 0 then "Unknown error" else err)) := by
  have hrc' : (rc != 0) = true := by simp [hrc]
  have houtcome : procOutcome ex.execution_timeout (ProcResult.done rc out err)
      = (none, some ("Command failed with exit code " ++ toString rc ++ ": "
        ++ (if err.length = 0 then "Unknown error" else err))) := by
    unfold procOutcome
    dsimp only
    rw [if_pos hrc']
  have hmodel : execShellCommandModel (isWindows ex) ex.execution_timeout t.command
      w.shellEnv = (none, some ("Command failed with exit code " ++ toString rc ++ ": "
        ++ (if err.length = 0 then "Unknown error" else err))) := by
    unfold execShellCommandModel
    rw [if_neg (by simp [hcmd])]
    rcases hplan with ⟨args, hp⟩ | ⟨full, hp⟩ <;>
      rw [hp, hspawn, hproc] <;>
      dsimp only <;>
      exact houtcome
  have hmsg : pyTruthy (some ("Command failed with exit code " ++ toString rc ++ ": "
      ++ (if err.length = 0 then "Unknown error" else err))) = true :=
    pyTruthy_of_len _
      (len_append_left _ _ (len_append_left _ _ (len_append_left _ _ (by decide))))
  rw [executeTask_status, executeTask_error, dispatch_shell ex t w htype, hraised,
    hmodel, handlerStep_err _ _ hmsg]
  exact ⟨rfl, rfl⟩

theorem shell_nonzero_exit_failure_witness :
    (executeTask sampleExecutor { baseTask with command := some "exit 1" }
        { sampleWorld with shellEnv :=
            { shlexResult := Except.ok ["exit", "1"], spawnError := none
              procResult := ProcResult.done 1 "" "" } }).status = TaskStatus.failed ∧
    (executeTask sampleExecutor { baseTask with command := some "exit 1" }
        { sampleWorld with shellEnv :=
            { shlexResult := Except.ok ["exit", "1"], spawnError := none
              procResult := ProcResult.done 1 "" "" } }).error
      = some "Command failed with exit code 1: Unknown error" ∧
    strHasSub "Command failed with exit code 1: Unknown error" "exit code 1" = true := by
  have h := shell_nonzero_exit_failure sampleExecutor
    { baseTask with command := some "exit 1" }
    { sampleWorld with shellEnv :=
        { shlexResult := Except.ok ["exit", "1"], spawnError := none
          procResult := ProcResult.done 1 "" "" } }
    1 "" "" rfl rfl (by decide)
    (Or.inl ⟨["exit", "1"], by decide⟩) rfl rfl (by decide)
  exact ⟨h.1, by rw [h.2]; rfl, by decide⟩

/-- C5: for every `api_call` task with a non-empty URL whose HTTP request
completes with a response (no network error, no timeout), the result is
`completed` with the response body as output when the status is below 400,
and `failed` with an error spelling out the status code and the body when
the status is at least 400. -/
theorem api_call_status_split (ex : Executor) (t : Task) (w : World)
    (st : Nat) (body : String)
    (htype : t.type = "api_call")
    (hraised : w.raised = none)
    (hurl : pyFalsy t.api_url = false)
    (henv : w.apiEnv = ApiResult.response st body) :
    (st < 400 →
      (executeTask ex t w).status = TaskStatus.completed ∧
      (executeTask ex t w).output = some body ∧
      (executeTask ex t w).error = none) ∧
    (400 ≤ st →
      (executeTask ex t w).status = TaskStatus.failed ∧
      (executeTask ex t w).error = some ("API call failed with status "
        ++ toString st ++ ": " ++ body) ∧
      (executeTask ex t w).output = none) := by
  constructor
  · intro hlt
    have hmodel : execApiCallModel ex.execution_timeout t.api_url t.api_method w.apiEnv
        = (some body, none) := by
      unfold execApiCallModel
      rw [if_neg (by simp [hurl]), henv]
      dsimp only
      rw [if_neg (show ¬ st ≥ 400 by omega)]
    rw [executeTask_status, executeTask_output, executeTask_error,
      dispatch_api ex t w htype, hraised, hmodel,
      handlerStep_ok t.id (some body, none) rfl]
    exact ⟨rfl, rfl, rfl⟩
  · intro hge
    have hmodel : execApiCallModel ex.execution_timeout t.api_url t.api_method w.apiEnv
        = (none, some ("API call failed with status " ++ toString st ++ ": " ++ body)) := by
      unfold execApiCallModel
      rw [if_neg (by simp [hurl]), henv]
      dsimp only
      rw [if_pos (show st ≥ 400 from hge)]
    have hmsg : pyTruthy (some ("API call failed with status " ++ toString st ++ ": "
        ++ body)) = true :=
      pyTruthy_of_len _
        (len_append_left _ _ (len_append_left _ _ (len_append_left _ _ (by decide))))
    rw [executeTask_status, executeTask_output, executeTask_error,
      dispatch_api ex t w htype, hraised, hmodel, handlerStep_err _ _ hmsg]
    exact ⟨rfl, rfl, rfl⟩

theorem api_call_status_split_witness :
    (executeTask sampleExecutor { baseTask with type := "api_call" }
        { sampleWorld with apiEnv := ApiResult.response 404 "not found" }).status
      = TaskStatus.failed ∧
    (executeTask sampleExecutor { baseTask with type := "api_call" }
        { sampleWorld with apiEnv := ApiResult.response 404 "not found" }).error
      = some "API call failed with status 404: not found" ∧
    strHasSub "API call failed with status 404: not found" "404" = true ∧
    strHasSub "API call failed with status 404: not found" "not found" = true := by
  have h := (api_call_status_split sampleExecutor { baseTask with type := "api_call" }
    { sampleWorld with apiEnv := ApiResult.response 404 "not found" }
    404 "not found" rfl rfl (by decide) rfl).2 (by omega)
  exact ⟨h.1, by rw [h.2.1]; rfl, by decide, by decide⟩

/-- C6: for every `ai` task with a non-empty prompt executed while no AI
client is configured, `execute_task` returns `failed` with error exactly
`"No AI client configured for AI tasks"`, and the result does not depend on
the provider environment at all (no network call is consulted). -/
theorem ai_no_client_immediate_failure (ex : Executor) (t : Task) (w : World)
    (htype : t.type = "ai")
    (hraised : w.raised = none)
    (hprompt : pyFalsy t.prompt = false)
    (hclient : ex.ai_configured = false) :
    (executeTask ex t w).status = TaskStatus.failed ∧
    (executeTask ex t w).error = some "No AI client configured for AI tasks" ∧
    (∀ env : AiResult, executeTask ex t { w with aiEnv := env } = executeTask ex t w) := by
  have hmodel : ∀ env : AiResult, execAiTaskModel ex.ai_configured t.prompt env
      = (none, some "No AI client configured for AI tasks") := by
    intro env
    unfold execAiTaskModel
    rw [if_neg (by simp [hprompt]), hclient]
    simp
  refine ⟨?_, ?_, ?_⟩
  · rw [executeTask_status, dispatch_ai ex t w htype, hraised, hmodel,
      handlerStep_err _ _ (by decide)]
  · rw [executeTask_error, dispatch_ai ex t w htype, hraised, hmodel,
      handlerStep_err _ _ (by decide)]
  · intro env
    unfold executeTask
    rw [dispatch_ai ex t { w with aiEnv := env } htype]
    rw [dispatch_ai ex t w htype]
    rw [hmodel, hmodel]

theorem ai_no_client_immediate_failure_witness :
    (executeTask sampleExecutor { baseTask with type := "ai" } sampleWorld).status
      = TaskStatus.failed ∧
    (executeTask sampleExecutor { baseTask with type := "ai" } sampleWorld).error
      = some "No AI client configured for AI tasks" ∧
    executeTask sampleExecutor { baseTask with type := "ai" }
        { sampleWorld with aiEnv := AiResult.raisedErr "boom" }
      = executeTask sampleExecutor { baseTask with type := "ai" } sampleWorld := by
  have h := ai_no_client_immediate_failure sampleExecutor
    { baseTask with type := "ai" } sampleWorld rfl rfl (by decide) rfl
  exact ⟨h.1, h.2.1, h.2.2 (AiResult.raisedErr "boom")⟩

/-- C7: for every `reminder` task with a non-empty message on a Linux host,
the notification command is chosen along the ordered fallback chain —
`notify-send` when present, else `zenity`, else `xmessage` — and when none
of the three is present the execution fails with an error naming the host
platform. -/
theorem reminder_linux_fallback_chain (ex : Executor) (t : Task) (w : World)
    (htype : t.type = "reminder")
    (hos : ex.os_type = "Linux")
    (hmsg : pyFalsy t.reminder_message = false)
    (hraised : w.raised = none)
    (hr2 : w.reminderEnv.raised = none) :
    (w.reminderEnv.hasNotifySend = true →
      linuxNotifyCommand (reminderTitle t) (t.reminder_message.getD "")
          w.reminderEnv.hasNotifySend w.reminderEnv.hasZenity w.reminderEnv.hasXmessage
        = some (notifySendCommand (reminderTitle t) (t.reminder_message.getD ""))) ∧
    (w.reminderEnv.hasNotifySend = false → w.reminderEnv.hasZenity = true →
      linuxNotifyCommand (reminderTitle t) (t.reminder_message.getD "")
          w.reminderEnv.hasNotifySend w.reminderEnv.hasZenity w.reminderEnv.hasXmessage
        = some (zenityCommand (reminderTitle t) (t.reminder_message.getD ""))) ∧
    (w.reminderEnv.hasNotifySend = false → w.reminderEnv.hasZenity = false →
      w.reminderEnv.hasXmessage = true →
      linuxNotifyCommand (reminderTitle t) (t.reminder_message.getD "")
          w.reminderEnv.hasNotifySend w.reminderEnv.hasZenity w.reminderEnv.hasXmessage
        = some (xmessageCommand (reminderTitle t) (t.reminder_message.getD ""))) ∧
    (w.reminderEnv.hasNotifySend = false → w.reminderEnv.hasZenity = false →
      w.reminderEnv.hasXmessage = false →
      (executeTask ex t w).status = TaskStatus.failed ∧
      (executeTask ex t w).error
        = some "No notification command available on this system (Linux)" ∧
      strHasSub "No notification command available on this system (Linux)" "Linux"
        = true) := by
  refine ⟨?_, ?_, ?_, ?_⟩
  · intro h1
    unfold linuxNotifyCommand
    rw [h1]
    rfl
  · intro h1 h2
    unfold linuxNotifyCommand
    rw [h1, h2]
    rfl
  · intro h1 h2 h3
    unfold linuxNotifyCommand
    rw [h1, h2, h3]
    rfl
  · intro h1 h2 h3
    have hln : linuxNotifyCommand (reminderTitle t) (t.reminder_message.getD "")
        false false false = none := rfl
    have hmodel : execReminderModel ex (reminderTitle t) t.reminder_message
        w.reminderEnv
        = (none, some "No notification command available on this system (Linux)") := by
      unfold execReminderModel
      rw [if_neg (by simp [hmsg]), hr2]
      dsimp only
      unfold isWindows
      rw [hos]
      rw [if_neg (show ¬((("Linux" : String) == "Windows") = true) by decide)]
      rw [if_neg (show ¬((("Linux" : String) == "Darwin") = true) by decide)]
      rw [h1, h2, h3, hln]
      rfl
    rw [executeTask_status, executeTask_error, dispatch_reminder ex t w htype,
      hraised, hmodel, handlerStep_err _ _ (by decide)]
    exact ⟨rfl, rfl, by decide⟩

theorem reminder_linux_fallback_chain_witness :
    (executeTask sampleExecutor { baseTask with type := "reminder" } sampleWorld).status
      = TaskStatus.failed ∧
    (executeTask sampleExecutor { baseTask with type := "reminder" } sampleWorld).error
      = some "No notification command available on this system (Linux)" ∧
    strHasSub "No notification command available on this system (Linux)" "Linux"
      = true := by
  exact (reminder_linux_fallback_chain sampleExecutor
    { baseTask with type := "reminder" } sampleWorld rfl rfl (by decide) rfl rfl).2.2.2
    rfl rfl rfl

/-! ## Well-formed JSON (spec boundary notion)

Modelled from the spec: the transport contract of spec §6 speaks of
"well-formed JSON values" and the stdio wrappers of `src/main.py` call the
standard library's `json.loads` to test validity; neither the `json` module
nor the repository's `mcp_scheduler/json_parser.py` is under `src/`.  The
checker below implements the JSON value grammar (RFC 8259, plus the
`NaN`/`Infinity` extensions `json.loads` accepts), fuel-indexed so that it
is a total, executable function; the fuel in `jsonValid` dominates every
recursion path, which consumes at least one character every two steps. -/

/-- JSON insignificant whitespace. -/
def isJsonWs (c : Char) : Bool := c = ' ' || c = '\t' || c = '\n' || c = '\r'

/-- Drop leading JSON whitespace. -/
def skipWsL (cs : List Char) : List Char := cs.dropWhile isJsonWs

/-- The opening brace character. -/
def lbrace : Char := Char.ofNat 123

/-- The closing brace character. -/
def rbrace : Char := Char.ofNat 125

/-- Hexadecimal digit (for `\uXXXX` escapes). -/
def isHexDigit (c : Char) : Bool :=
  c.isDigit || ('a' ≤ c && c ≤ 'f') || ('A' ≤ c && c ≤ 'F')

/-- Consume a JSON string body after its opening quote, up to and including
the closing quote; returns the remaining input.  Fuel-indexed; every step
consumes at least one character. -/
def parseStringBody : Nat → List Char → Option (List Char)
  | 0, _ => none
  | fuel + 1, cs =>
    match cs with
    | [] => none
    | c :: rest =>
      if c = '"' then some rest
      else if c = '\\' then
        match rest with
        | [] => none
        | e :: rest2 =>
          if e = 'u' then
            match rest2 with
            | h1 :: h2 :: h3 :: h4 :: rest3 =>
              if isHexDigit h1 && isHexDigit h2 && isHexDigit h3 && isHexDigit h4 then
                parseStringBody fuel rest3
              else none
            | _ => none
          else if e = '"' || e = '\\' || e = '/' || e = 'b' || e = 'f' || e = 'n'
              || e = 'r' || e = 't' then
            parseStringBody fuel rest2
          else none
      else if c.toNat < 32 then none
      else parseStringBody fuel rest

/-- Match a literal keyword tail. -/
def matchLit : List Char → List Char → Option (List Char)
  | [], rest => some rest
  | l :: ls, c :: rest => if c = l then matchLit ls rest else none
  | _ :: _, [] => none

/-- Consume a JSON number starting at its first digit (sign already
consumed). -/
def parseNumTail (cs : List Char) : Option (List Char) :=
  let ds := cs.takeWhile Char.isDigit
  let rest := cs.dropWhile Char.isDigit
  if ds.isEmpty then none
  else if ds.length > 1 && ds.headD '0' = '0' then none
  else
    let afterFrac : Option (List Char) :=
      match rest with
      | '.' :: r =>
        if (r.takeWhile Char.isDigit).isEmpty then none
        else some (r.dropWhile Char.isDigit)
      | _ => some rest
    match afterFrac with
    | none => none
    | some r2 =>
      match r2 with
      | e :: r3 =>
        if e = 'e' || e = 'E' then
          let r4 := match r3 with
            | s :: r5 => if s = '+' || s = '-' then r5 else r3
            | [] => r3
          if (r4.takeWhile Char.isDigit).isEmpty then none
          else some (r4.dropWhile Char.isDigit)
        else some r2
      | [] => some r2

mutual

/-- Consume one JSON value; returns the remaining input. -/
def parseJsonValue : Nat → List Char → Option (List Char)
  | 0, _ => none
  | fuel + 1, cs =>
    match skipWsL cs with
    | [] => none
    | c :: rest =>
      if c = '"' then parseStringBody fuel rest
      else if c = lbrace then parseObjectRest fuel rest
      else if c = '[' then parseArrayRest fuel rest
      else if c = 't' then matchLit ['r', 'u', 'e'] rest
      else if c = 'f' then matchLit ['a', 'l', 's', 'e'] rest
      else if c = 'n' then matchLit ['u', 'l', 'l'] rest
      else if c = 'N' then matchLit ['a', 'N'] rest
      else if c = 'I' then matchLit ['n', 'f', 'i', 'n', 'i', 't', 'y'] rest
      else if c = '-' then
        match rest with
        | 'I' :: rest2 => matchLit ['n', 'f', 'i', 'n', 'i', 't', 'y'] rest2
        | _ => parseNumTail rest
      else if c.isDigit then parseNumTail (c :: rest)
      else none

/-- Consume the rest of an array after `[` (possibly empty). -/
def parseArrayRest : Nat → List Char → Option (List Char)
  | 0, _ => none
  | fuel + 1, cs =>
    match skipWsL cs with
    | ']' :: rest => some rest
    | cs2 => parseArrayItems fuel cs2

/-- Consume one-or-more comma-separated array elements and the closing
bracket. -/
def parseArrayItems : Nat → List Char → Option (List Char)
  | 0, _ => none
  | fuel + 1, cs =>
    match parseJsonValue fuel cs with
    | none => none
    | some rest =>
      match skipWsL rest with
      | ']' :: rest2 => some rest2
      | ',' :: rest2 => parseArrayItems fuel rest2
      | _ => none

/-- Consume the rest of an object after the opening brace (possibly
empty). -/
def parseObjectRest : Nat → List Char → Option (List Char)
  | 0, _ => none
  | fuel + 1, cs =>
    match skipWsL cs with
    | c :: rest => if c = rbrace then some rest else parseObjectItems fuel (c :: rest)
    | [] => none

/-- Consume one-or-more `"key": value` members and the closing brace; the
input starts at a prospective key. -/
def parseObjectItems : Nat → List Char → Option (List Char)
  | 0, _ => none
  | fuel + 1, cs =>
    match cs with
    | c :: rest =>
      if c = '"' then
        match parseStringBody fuel rest with
        | none => none
        | some rest2 =>
          match skipWsL rest2 with
          | ':' :: rest3 =>
            match parseJsonValue fuel rest3 with
            | none => none
            | some rest4 =>
              match skipWsL rest4 with
              | c2 :: rest5 =>
                if c2 = rbrace then some rest5
                else if c2 = ',' then
                  match skipWsL rest5 with
                  | c3 :: rest6 =>
                    if c3 = '"' then parseObjectItems fuel (c3 :: rest6) else none
                  | [] => none
                else none
              | [] => none
          | _ => none
      else none
    | [] => none

end

/-- Modelled from the spec: `json.loads(s)` succeeds exactly when `s` is one
well-formed JSON value (with optional surrounding whitespace). -/
def jsonValid (s : String) : Bool :=
  match parseJsonValue (4 * s.length + 16) s.data with
  | some rest => (skipWsL rest).isEmpty
  | none => false

/-! ## The stdio-transport stdout wrapper (main.py lines 76-96) -/

/-- Python truthiness of a plain string. -/
def pyTruthyStr (s : String) : Bool := s.length != 0

/-- Where one `write(data)` call sends its payload: forwarded to the real
stdout, redirected to stderr, or silently dropped (blank input). -/
inductive WriteDest
  | outbound (data : String)
  | diagnostic (msg : String)
  | dropped
deriving DecidableEq

/-- `JSONRPCStdout.write` (main.py lines 80-90): non-blank data whose
stripped text starts with a brace or bracket is forwarded unchanged;
other non-blank data goes to stderr with a diagnostic prefix (truncated to
100 characters); blank data is dropped. -/
def jsonrpcStdoutWrite (data : String) : WriteDest :=
  if pyTruthyStr data && pyTruthyStr (pyStrip data) then
    if pyStartsWith (pyStrip data) "\x7b" || pyStartsWith (pyStrip data) "[" then
      WriteDest.outbound data
    else
      WriteDest.diagnostic
        ("Attempted to write non-JSON to stdout: " ++ pyTake data 100 ++ "\n")
  else WriteDest.dropped

/-! ## The stdio-transport stdin wrapper (main.py lines 99-143) -/

/-- The skip filter of `SafeJsonStdin.readline` (main.py lines 110-115):
obvious non-JSON lines (Windows drive paths, absolute paths, Python file
mentions, virtualenv mentions, or anything not starting with a brace or
bracket). -/
def skipFilter (stripped : String) : Bool :=
  pyStartsWith stripped "D:/" || pyStartsWith stripped "C:/"
    || pyStartsWith stripped "/"
    || strHasSub stripped ".py" || strHasSub stripped ".venv"
    || (!pyStartsWith stripped "\x7b" && !pyStartsWith stripped "[")

/-- ASCII whitespace as Python's regex `\s` sees it. -/
def isReWs (c : Char) : Bool :=
  c = ' ' || c = '\t' || c = '\n' || c = '\r' || c = '\x0b' || c = '\x0c'

/-- Try to match `"id"\s*:\s*(\d+)` at the head of the input. -/
def matchIdAt : List Char → Option String
  | '"' :: 'i' :: 'd' :: '"' :: rest =>
    match rest.dropWhile isReWs with
    | ':' :: rest2 =>
      let ds := (rest2.dropWhile isReWs).takeWhile Char.isDigit
      if ds.isEmpty then none else some (String.mk ds)
    | _ => none
  | _ => none

/-- The `re.search` scan: the first position where the id pattern matches
wins (main.py line 129). -/
def searchId : List Char → Option String
  | [] => none
  | c :: rest =>
    match matchIdAt (c :: rest) with
    | some d => some d
    | none => searchId rest

/-- The request id recovered from a malformed line, when the numeric-id
regex finds one. -/
def recoverId (s : String) : Option String := searchId s.data

/-- The `-32700` parse-error responses built at main.py lines 132 and 134:
with the recovered numeric id when one was found, with `null` otherwise. -/
def mkParseErrJson : Option String → String
  | some v => "\x7b\"jsonrpc\":\"2.0\",\"id\":" ++ v
      ++ ",\"error\":\x7b\"code\":-32700,\"message\":\"Parse error\"\x7d\x7d\n"
  | none =>
      "\x7b\"jsonrpc\":\"2.0\",\"id\":null,\"error\":\x7b\"code\":-32700,\"message\":\"Parse error\"\x7d\x7d\n"

/-- `SafeJsonStdin.readline` on one input line (main.py lines 103-140): empty
input (EOF) is passed through; skip-filtered lines become a blank line;
lines that look like JSON are passed through when they parse and otherwise
replaced by a `-32700` JSON-RPC error carrying the recovered id or `null`.
(The `-32603` fallback at line 138 is unreachable here: the embedded id
recovery cannot raise.) -/
def safeJsonStdinReadline (line : String) : String :=
  if line.length = 0 then line
  else
    if skipFilter (pyStrip line) then "\n"
    else if pyStartsWith (pyStrip line) "\x7b" || pyStartsWith (pyStrip line) "[" then
      if jsonValid (pyStrip line) then line
      else mkParseErrJson (recoverId (pyStrip line))
    else line

theorem eq_empty_of_len (s : String) (h : s.length = 0) : s = "" := by
  cases s with
  | mk data =>
    cases data with
    | nil => rfl
    | cons c cs => simp [String.length] at h

/-! ## Claims about the stdio wrappers -/

/-- C8 counterexample: the stdout wrapper forwards to the real stdout a
string that is not a well-formed JSON value — it only checks the leading
character, so the claim that everything forwarded is well-formed JSON fails
on this concrete input. -/
theorem stdout_wrapper_forwards_non_json :
    jsonrpcStdoutWrite "\x7b oops" = WriteDest.outbound "\x7b oops" ∧
    jsonValid "\x7b oops" = false := by
  constructor
  · rfl
  · decide

/-- C8 (amended): the stdout wrapper forwards `data` unchanged exactly when
`data` is non-blank and its stripped text begins with a brace or a bracket
(well-formed or not); every other non-blank string is redirected to the
diagnostic channel; blank strings are dropped. -/
theorem stdout_wrapper_routing (data : String) :
    ((∃ d, jsonrpcStdoutWrite data = WriteDest.outbound d) ↔
      (pyTruthyStr data = true ∧ pyTruthyStr (pyStrip data) = true ∧
        (pyStartsWith (pyStrip data) "\x7b" = true ∨
          pyStartsWith (pyStrip data) "[" = true))) ∧
    (∀ d, jsonrpcStdoutWrite data = WriteDest.outbound d → d = data) ∧
    ((∃ m, jsonrpcStdoutWrite data = WriteDest.diagnostic m) ↔
      (pyTruthyStr data = true ∧ pyTruthyStr (pyStrip data) = true ∧
        pyStartsWith (pyStrip data) "\x7b" = false ∧
        pyStartsWith (pyStrip data) "[" = false)) ∧
    ((pyTruthyStr data = false ∨ pyTruthyStr (pyStrip data) = false) →
      jsonrpcStdoutWrite data = WriteDest.dropped) := by
  unfold jsonrpcStdoutWrite
  cases h1 : pyTruthyStr data <;> cases h2 : pyTruthyStr (pyStrip data) <;>
    cases h3 : pyStartsWith (pyStrip data) "\x7b" <;>
    cases h4 : pyStartsWith (pyStrip data) "[" <;>
    simp [h1, h2, h3, h4]

theorem stdout_wrapper_routing_witness :
    jsonrpcStdoutWrite " " = WriteDest.dropped :=
  (stdout_wrapper_routing " ").2.2.2 (Or.inr (by decide))

/-- C9: for every input line that looks like JSON (stripped text begins with
a brace or bracket), escapes the non-JSON skip filters, and fails JSON
parsing, the stdin wrapper replaces the line by the `-32700` JSON-RPC parse
error whose `id` is the numeric request id recovered from the malformed
line when the id regex finds one, and `null` otherwise. -/
theorem stdin_parse_error_recovery (line : String)
    (hjson : pyStartsWith (pyStrip line) "\x7b" = true ∨
      pyStartsWith (pyStrip line) "[" = true)
    (hskip : skipFilter (pyStrip line) = false)
    (hbad : jsonValid (pyStrip line) = false) :
    safeJsonStdinReadline line = mkParseErrJson (recoverId (pyStrip line)) := by
  have hne : ¬(line.length = 0) := by
    intro h0
    rw [eq_empty_of_len line h0] at hjson
    revert hjson
    decide
  unfold safeJsonStdinReadline
  rw [if_neg hne]
  rw [if_neg (by simp [hskip])]
  rw [if_pos (show (pyStartsWith (pyStrip line) "\x7b"
      || pyStartsWith (pyStrip line) "[") = true by
    rcases hjson with h | h <;> simp [h])]
  rw [if_neg (by simp [hbad])]

theorem stdin_parse_error_recovery_witness :
    jsonValid (pyStrip "\x7b\"id\": 7, broken") = false ∧
    safeJsonStdinReadline "\x7b\"id\": 7, broken"
      = "\x7b\"jsonrpc\":\"2.0\",\"id\":7,\"error\":\x7b\"code\":-32700,\"message\":\"Parse error\"\x7d\x7d\n" := by
  constructor
  · decide
  · have h := stdin_parse_error_recovery "\x7b\"id\": 7, broken"
      (Or.inl (by decide)) (by decide) (by decide)
    rw [h]
    decide

end SchedulerMCP
